import Mathlib

/-!
Verification development for the PillarScatter output-checking scripts
(`check.py` and `check_visual.py`).

The scripts compare a produced NHWC feature grid against an NCHW reference
grid, optionally restricting the comparison to the grid cells named by a
coordinate stream (debug mode, truncated to the first `DEBUG_MAX_PILLARS`
pillar records).

Modelling conventions:
  * grid elements (float16 on disk) are modelled as exact rationals; the
    comparison logic performs no arithmetic beyond subtraction, absolute
    value and the combined tolerance bound, all of which are expressed
    verbatim over `ℚ`;
  * a numpy array of shape (1, H, W, C) is modelled as a `Grid`: its three
    dimensions plus a value function indexed by (y, x, c);
  * printed diagnostics that carry information (which comparison facts were
    actually computed and reported) are modelled as `Option` fields of the
    result structure: `none` means the script never computed/printed the
    corresponding fact on that control path;
  * file-system effects are modelled by explicit booleans (whether the file
    exists) and by passing the decoded file contents as lists.
-/

/-- A dense feature grid in canonical NHWC layout with batch 1:
dimensions `H` (height), `W` (width), `C` (channels) and the value at
logical position (row `y`, column `x`, channel `c`). -/
structure Grid where
  H : Nat
  W : Nat
  C : Nat
  val : Nat → Nat → Nat → ℚ

/-- One record of the coordinate stream: (batch_id, x, y, reserved),
four unsigned 32-bit integers in `check.py`. -/
structure Coord where
  batch : Nat
  x : Nat
  y : Nat
  reserved : Nat
deriving DecidableEq

/-- `DEBUG_MAX_PILLARS` from `check.py` line 14: the truncation window used
in debug mode. -/
def DEBUG_MAX_PILLARS : Nat := 9282

/-- Default `tolerance` argument of `compare_arrays` (`check.py` line 135). -/
def TOLERANCE : ℚ := 1 / 100000

/-- Shape test of `compare_arrays` (`check.py` line 155): the two arrays
have the same shape. -/
def sameShape (a b : Grid) : Bool :=
  decide (a.H = b.H ∧ a.W = b.W ∧ a.C = b.C)

/-- `np.array_equal(arr1, arr2)` (`check.py` line 229): elementwise exact
equality over all in-bounds positions. -/
def arrayEqual (a b : Grid) : Bool :=
  decide (∀ y < a.H, ∀ x < a.W, ∀ c < a.C, a.val y x c = b.val y x c)

/-- `np.allclose(arr1, arr2, rtol=tolerance, atol=tolerance)`
(`check.py` line 234): every element pair satisfies the combined bound
`|a - b| ≤ atol + rtol * |b|`, with both tolerances equal to `tol`. -/
def allclose (tol : ℚ) (a b : Grid) : Bool :=
  decide (∀ y < a.H, ∀ x < a.W, ∀ c < a.C,
    |a.val y x c - b.val y x c| ≤ tol + tol * |b.val y x c|)

/-- Eligibility test of the debug comparison loop (`check.py` line 209):
`batch_id == 0 and x < arr1.shape[2] and y < arr1.shape[1]`, where the NHWC
shape makes `shape[2]` the width and `shape[1]` the height. -/
def eligible (a : Grid) (r : Coord) : Bool :=
  decide (r.batch = 0 ∧ r.x < a.W ∧ r.y < a.H)

/-- `np.allclose(pos1, pos2, rtol=tolerance, atol=tolerance)` on the full
channel vectors at one coordinate record (`check.py` lines 211-214). -/
def cellClose (tol : ℚ) (a b : Grid) (r : Coord) : Bool :=
  decide (∀ c < a.C,
    |a.val r.y r.x c - b.val r.y r.x c| ≤ tol + tol * |b.val r.y r.x c|)

/-- The debug comparison loop of `check.py` lines 203-221: take the window
prefix of the coordinate stream, keep the eligible records, and return
(`match_count`, `total_checked`). -/
def restrictedCounts (tol : ℚ) (a b : Grid) (coords : List Coord)
    (window : Nat) : Nat × Nat :=
  (((coords.take window).filter (eligible a)).filter (cellClose tol a b) |>.length,
   ((coords.take window).filter (eligible a)).length)

/-- All elementwise absolute differences of two same-shape grids, in
row-major scan order (`np.abs(arr1 - arr2)`, `check.py` line 185). -/
def absDiffList (a b : Grid) : List ℚ :=
  (List.range a.H).flatMap fun y =>
    (List.range a.W).flatMap fun x =>
      (List.range a.C).map fun c => |a.val y x c - b.val y x c|

/-- `np.max(diff)` (`check.py` line 186). -/
def maxAbsDiff (a b : Grid) : ℚ :=
  (absDiffList a b).foldl max 0

/-- Result of one `compare_arrays` call. `passed` is the returned boolean;
the `Option` fields record which facts the call computed and reported on the
path it took (`none` when the corresponding print/computation never ran):
`maxDiff` the difference statistics of lines 184-191, `exact` the
`np.array_equal` fact, `tolerant` the whole-array `np.allclose` fact,
`restricted` the debug-mode (`match_count`, `total_checked`) pair. -/
structure CompareResult where
  shapeMatch : Bool
  maxDiff : Option ℚ
  exact : Option Bool
  tolerant : Option Bool
  restricted : Option (Nat × Nat)
  passed : Bool

/-- The shared tail of `compare_arrays` (`check.py` lines 228-254): check
exact equality first and return `True` at once when it holds (the allclose
fact is then never computed); otherwise check `np.allclose`; otherwise
report the out-of-tolerance positions and return `False`. -/
def fullVerdict (tol : ℚ) (a b : Grid) (md : Option ℚ)
    (r : Option (Nat × Nat)) : CompareResult :=
  if arrayEqual a b then ⟨true, md, some true, none, r, true⟩
  else if allclose tol a b then ⟨true, md, some false, some true, r, true⟩
  else ⟨true, md, some false, some false, r, false⟩

/-- `compare_arrays(arr1, arr2, tolerance, debug_coords)` of `check.py`
lines 135-254, with `DEBUG_MODE = True` as in the source and the truncation
window made an explicit parameter (the source reads the module constant
`DEBUG_MAX_PILLARS`).  Shape mismatch returns `False` before any numeric
work; otherwise the difference statistics are computed, then when a
coordinate stream is present the debug loop runs and `match_count ==
total_checked` returns `True` immediately; otherwise the full exact /
tolerant checks decide the result. -/
def compareArrays (tol : ℚ) (a b : Grid) (debugCoords : Option (List Coord))
    (window : Nat) : CompareResult :=
  if sameShape a b = false then ⟨false, none, none, none, none, false⟩
  else
    match debugCoords with
    | some coords =>
      if (restrictedCounts tol a b coords window).1
          = (restrictedCounts tol a b coords window).2 then
        ⟨true, some (maxAbsDiff a b), none, none,
          some (restrictedCounts tol a b coords window), true⟩
      else
        fullVerdict tol a b (some (maxAbsDiff a b))
          (some (restrictedCounts tol a b coords window))
    | none => fullVerdict tol a b (some (maxAbsDiff a b)) none

/-- Reinterpreting a flat NCHW buffer as the canonical NHWC grid
(`data.reshape(1, C, H, W)` followed by `transpose(0, 2, 3, 1)`,
`check.py` lines 343-344 and `check_visual.py` lines 120-121): the value at
NHWC flat offset `y*(w*c) + x*c + cc` is the buffer element at NCHW flat
offset `cc*(h*w) + y*w + x`. -/
def transposeToNHWC (c h w : Nat) (buf : Nat → ℚ) : Nat → ℚ := fun j =>
  buf ((j % c) * (h * w) + (j / (w * c)) * w + (j / c) % w)

/-- The inverse axis permutation (`transpose(0, 3, 1, 2)`): reading a
canonical NHWC grid back out in NCHW flat order. -/
def transposeToNCHW (c h w : Nat) (g : Nat → ℚ) : Nat → ℚ := fun i =>
  g ((i % (h * w) / w) * (w * c) + (i % w) * c + i / (h * w))

/-- Failure of `load_feature_map` in `check_visual.py` line 111: the file
holds fewer elements than the declared grid needs. -/
inductive LoadError where
  | insufficientData
deriving DecidableEq

/-- `load_feature_map` size handling, `check_visual.py` lines 105-112:
exact size is accepted silently; a shorter buffer raises (InsufficientData);
a longer buffer is truncated to the expected prefix and the size warning is
emitted (modelled as the boolean diagnostic in the result). -/
def load_feature_map (data : List ℚ) (h w c : Nat) :
    Except LoadError (Bool × List ℚ) :=
  if data.length = 1 * h * w * c then .ok (false, data)
  else if data.length < 1 * h * w * c then .error .insufficientData
  else .ok (true, data.take (1 * h * w * c))

/-- `coords.reshape(-1, 4)` (`check.py` line 54): group the decoded 32-bit
words into (batch_id, x, y, reserved) records. -/
def chunk4 : List Nat → List Coord
  | a :: b :: c :: d :: rest => ⟨a, b, c, d⟩ :: chunk4 rest
  | _ => []

/-- `load_coords_file` of `check.py` lines 38-58.  `sourceFound` models the
`os.path.exists` test; `words` models the decoded uint32 stream.  A missing
file returns `None` (after a printed warning); a word count that is not a
multiple of 4 makes `reshape(-1, 4)` raise, the handler prints and returns
`None`; otherwise the record list is returned. -/
def load_coords_file (sourceFound : Bool) (words : List Nat) :
    Option (List Coord) :=
  if sourceFound = false then none
  else if words.length % 4 = 0 then some (chunk4 words) else none

/-- The fixed deployment element count `1 * 720 * 720 * 64`
(`check.py` line 335). -/
def EXPECTED_ELEMS : Nat := 1 * 720 * 720 * 64

/-- `output_data.reshape(1, 720, 720, 64)` (`check.py` line 338): the flat
buffer read as an NHWC grid. -/
def gridNHWC (data : List ℚ) : Grid :=
  ⟨720, 720, 64, fun y x c => data.getD (y * (720 * 64) + x * 64 + c) 0⟩

/-- `correct_data.reshape(1, 64, 720, 720).transpose(0, 2, 3, 1)`
(`check.py` lines 343-344): the flat NCHW buffer viewed as an NHWC grid. -/
def gridNCHW (data : List ℚ) : Grid :=
  ⟨720, 720, 64, fun y x c => data.getD (c * (720 * 720) + y * 720 + x) 0⟩

/-- Outcome of one run of `main()` in `check.py`: the process exit code and
whether the run ever loaded / reshaped / compared the grid data. -/
structure MainResult where
  exitCode : Nat
  gridsLoaded : Bool

/-- `main()` of `check.py` lines 256-367 (argument handling aside).
`digest` models MD5 over the decoded file contents; `outFound`/`refFound`
model the existence checks; `coords` is the already-loaded coordinate table
(loaded before the MD5 step when present).  Order of the source: existence
checks, file-size check, MD5 check with early exit 0, then grid loading and
`compare_arrays`.  When the size is not the expected element count the
arrays stay one-dimensional and the debug analysis crashes unpacking a
4-component shape, so the interpreter exits with code 1. -/
def mainRun (digest : List ℚ → Nat) (outFound refFound : Bool)
    (outData refData : List ℚ) (coords : Option (List Coord)) : MainResult :=
  if outFound = false then ⟨1, false⟩
  else if refFound = false then ⟨1, false⟩
  else if outData.length ≠ refData.length then ⟨1, false⟩
  else if digest outData = digest refData then ⟨0, false⟩
  else if outData.length = EXPECTED_ELEMS then
    ⟨if (compareArrays TOLERANCE (gridNHWC outData) (gridNCHW refData)
        coords DEBUG_MAX_PILLARS).passed then 0 else 1, true⟩
  else ⟨1, true⟩

/-- A 1×1×1 all-zero grid, used as a concrete test input. -/
def unitGrid : Grid := ⟨1, 1, 1, fun _ _ _ => 0⟩

/-- A 2×1×1 all-zero grid (different shape from `unitGrid`). -/
def tallGrid : Grid := ⟨2, 1, 1, fun _ _ _ => 0⟩

/-- A 720×720×64 all-zero grid matching the deployment dimensions. -/
def deployGrid : Grid := ⟨720, 720, 64, fun _ _ _ => 0⟩

/-- A concrete flat buffer for round-trip tests. -/
def exBuf : Nat → ℚ := fun i => (i : ℚ)

theorem restricted_le (tol : ℚ) (a b : Grid) (coords : List Coord) (w : Nat) :
    (restrictedCounts tol a b coords w).1 ≤ (restrictedCounts tol a b coords w).2 :=
  List.length_filter_le _ _

theorem exists_bad_cell (tol : ℚ) (a b : Grid) (coords : List Coord) (w : Nat)
    (h : (restrictedCounts tol a b coords w).1
      ≠ (restrictedCounts tol a b coords w).2) :
    ∃ r, eligible a r = true ∧ cellClose tol a b r = false := by
  have hlt : (((coords.take w).filter (eligible a)).filter
        (cellClose tol a b)).length
      < ((coords.take w).filter (eligible a)).length := by
    have hle := restricted_le tol a b coords w
    simp only [restrictedCounts] at h hle
    omega
  obtain ⟨r, hmem, hq⟩ := List.length_filter_lt_length_iff_exists.mp hlt
  exact ⟨r, List.of_mem_filter hmem, by simpa using hq⟩

theorem violation_spoils (tol : ℚ) (a b : Grid) (r : Coord)
    (htol : 0 ≤ tol) (he : eligible a r = true)
    (hc : cellClose tol a b r = false) :
    allclose tol a b = false ∧ arrayEqual a b = false := by
  simp only [eligible, decide_eq_true_eq] at he
  obtain ⟨hb, hx, hy⟩ := he
  have hc' : ¬ (∀ c < a.C,
      |a.val r.y r.x c - b.val r.y r.x c| ≤ tol + tol * |b.val r.y r.x c|) := by
    simpa [cellClose] using hc
  push_neg at hc'
  obtain ⟨c, hcC, hgt⟩ := hc'
  constructor
  · have hnall : ¬ (∀ y < a.H, ∀ x < a.W, ∀ cc < a.C,
        |a.val y x cc - b.val y x cc| ≤ tol + tol * |b.val y x cc|) := by
      intro hall
      exact absurd (hall r.y hy r.x hx c hcC) (not_le.mpr hgt)
    simpa [allclose] using hnall
  · have hne : a.val r.y r.x c ≠ b.val r.y r.x c := by
      intro heq
      rw [heq, sub_self, abs_zero] at hgt
      have h1 : 0 ≤ tol * |b.val r.y r.x c| := mul_nonneg htol (abs_nonneg _)
      linarith
    have hnall : ¬ (∀ y < a.H, ∀ x < a.W, ∀ cc < a.C,
        a.val y x cc = b.val y x cc) := by
      intro hall
      exact hne (hall r.y hy r.x hx c hcC)
    simpa [arrayEqual] using hnall

/-- Claim C2: for equal-shape grids, when a coordinate stream and a
truncation window are available the overall result of `compare_arrays` is
a pass exactly when the restricted comparison passes (matched == checked);
in particular a restricted failure is an overall failure even though the
full exact/tolerance checks still sit on the fall-through path. -/
theorem claim_C2 (tol : ℚ) (a b : Grid) (coords : List Coord) (w : Nat)
    (hs : sameShape a b = true) (htol : 0 ≤ tol) :
    ((compareArrays tol a b (some coords) w).passed = true ↔
      (restrictedCounts tol a b coords w).1
        = (restrictedCounts tol a b coords w).2) := by
  by_cases hmk : (restrictedCounts tol a b coords w).1
      = (restrictedCounts tol a b coords w).2
  · simp [compareArrays, hs, hmk]
  · obtain ⟨r, he, hc⟩ := exists_bad_cell tol a b coords w hmk
    obtain ⟨hac, hae⟩ := violation_spoils tol a b r htol he hc
    simp [compareArrays, fullVerdict, hs, hmk, hac, hae]

theorem claim_C2_witness :
    sameShape unitGrid unitGrid = true ∧ (0 : ℚ) ≤ 1 ∧
    ((compareArrays 1 unitGrid unitGrid (some [⟨0, 0, 0, 0⟩]) 1).passed = true ↔
      (restrictedCounts 1 unitGrid unitGrid [⟨0, 0, 0, 0⟩] 1).1
        = (restrictedCounts 1 unitGrid unitGrid [⟨0, 0, 0, 0⟩] 1).2) :=
  ⟨by decide, by norm_num,
    claim_C2 1 unitGrid unitGrid [⟨0, 0, 0, 0⟩] 1 (by decide) (by norm_num)⟩

/-- Claim C6: for grids of differing shape `compare_arrays` reports the
shape mismatch and returns at once: no difference statistics, no exact or
tolerance fact, no restricted counts, and a failing result. -/
theorem claim_C6 (tol : ℚ) (a b : Grid) (dc : Option (List Coord)) (w : Nat)
    (h : sameShape a b = false) :
    compareArrays tol a b dc w = ⟨false, none, none, none, none, false⟩ := by
  simp [compareArrays, h]

theorem claim_C6_witness :
    sameShape unitGrid tallGrid = false ∧
    compareArrays 1 unitGrid tallGrid none 0
      = ⟨false, none, none, none, none, false⟩ :=
  ⟨by decide, claim_C6 1 unitGrid tallGrid none 0 (by decide)⟩

/-- Claim C7: comparing a grid against itself with the full comparison, at
any tolerance, reports the exact-equality fact as true. -/
theorem claim_C7 (tol : ℚ) (a : Grid) (w : Nat) :
    (compareArrays tol a a none w).exact = some true := by
  have hs : sameShape a a = true := by simp [sameShape]
  have he : arrayEqual a a = true := by simp [arrayEqual]
  simp [compareArrays, fullVerdict, hs, he]

/-- Claim C1, counterexample: a coordinate stream whose window prefix has no
eligible record (checked == 0) makes the debug comparison return the
ordinary pass outcome, not a distinct no-eligible-cells outcome. -/
theorem claim_C1_counterexample :
    (compareArrays 1 unitGrid unitGrid (some [⟨1, 0, 0, 0⟩]) 1).restricted
      = some (0, 0) ∧
    (compareArrays 1 unitGrid unitGrid (some [⟨1, 0, 0, 0⟩]) 1).passed
      = true := by
  constructor <;> rfl

/-- Claim C1, amended: the restricted comparison result is a pass exactly
when matched == checked, with no checked > 0 requirement; when no record in
the window prefix is eligible, matched == checked == 0 holds vacuously and
the call returns the ordinary pass outcome. -/
theorem claim_C1_amended (tol : ℚ) (a b : Grid) (coords : List Coord) (w : Nat)
    (hs : sameShape a b = true)
    (hk : (restrictedCounts tol a b coords w).2 = 0) :
    (compareArrays tol a b (some coords) w).passed = true ∧
    (compareArrays tol a b (some coords) w).restricted = some (0, 0) := by
  have hle := restricted_le tol a b coords w
  have hp : restrictedCounts tol a b coords w = (0, 0) := by
    rw [Prod.ext_iff]
    exact ⟨by omega, hk⟩
  constructor <;> simp [compareArrays, hs, hp]

theorem claim_C1_amended_witness :
    sameShape unitGrid unitGrid = true ∧
    (restrictedCounts 1 unitGrid unitGrid [] 0).2 = 0 ∧
    ((compareArrays 1 unitGrid unitGrid (some []) 0).passed = true ∧
     (compareArrays 1 unitGrid unitGrid (some []) 0).restricted
       = some (0, 0)) :=
  ⟨by decide, by decide,
    claim_C1_amended 1 unitGrid unitGrid [] 0 (by decide) (by decide)⟩

/-- Claim C3, counterexample: on two byte-identical grids exact equality
holds, `compare_arrays` returns at once, and the whole-array tolerance fact
is never computed or reported (modelled as `tolerant = none`), although the
combined tolerance rule does hold at these inputs. -/
theorem claim_C3_counterexample :
    (compareArrays 1 unitGrid unitGrid none 0).tolerant = none ∧
    allclose 1 unitGrid unitGrid = true := by
  have hs : sameShape unitGrid unitGrid = true := by decide
  have he : arrayEqual unitGrid unitGrid = true := by decide
  refine ⟨by simp [compareArrays, fullVerdict, hs, he], ?_⟩
  simp [allclose, unitGrid]

/-- Claim C3, amended: the full comparison checks exact equality first and
short-circuits on it, so the tolerance fact is evaluated only when exact
equality fails; when it is evaluated, it is true exactly when every element
pair satisfies `|a-b| ≤ tol + tol * |b|` (the script passes the single
`tolerance` value as both `atol` and `rtol`). -/
theorem claim_C3_amended (tol : ℚ) (a b : Grid) (w : Nat)
    (hs : sameShape a b = true) :
    (compareArrays tol a b none w).exact = some (arrayEqual a b) ∧
    (compareArrays tol a b none w).tolerant
      = (if arrayEqual a b then none else some (allclose tol a b)) ∧
    (allclose tol a b = true ↔ ∀ y < a.H, ∀ x < a.W, ∀ c < a.C,
      |a.val y x c - b.val y x c| ≤ tol + tol * |b.val y x c|) := by
  refine ⟨?_, ?_, by simp [allclose]⟩ <;>
    cases he : arrayEqual a b <;>
      cases ht : allclose tol a b <;>
        simp [compareArrays, fullVerdict, hs, he, ht]

theorem claim_C3_amended_witness :
    sameShape unitGrid unitGrid = true ∧
    ((compareArrays 1 unitGrid unitGrid none 0).exact
        = some (arrayEqual unitGrid unitGrid) ∧
     (compareArrays 1 unitGrid unitGrid none 0).tolerant
        = (if arrayEqual unitGrid unitGrid then none
           else some (allclose 1 unitGrid unitGrid)) ∧
     (allclose 1 unitGrid unitGrid = true ↔
        ∀ y < unitGrid.H, ∀ x < unitGrid.W, ∀ c < unitGrid.C,
          |unitGrid.val y x c - unitGrid.val y x c|
            ≤ 1 + 1 * |unitGrid.val y x c|)) :=
  ⟨by decide, claim_C3_amended 1 unitGrid unitGrid 0 (by decide)⟩

/-- Claim C5: a coordinate record in the window prefix is eligible exactly
when batch_id == 0, x < width and y < height; ineligible records count
toward neither total, so on the given three-record stream with window 3 and
a grid at least 6 wide/tall but at most 10000 wide, checked == 1 and matched
depends only on the single eligible cell (5, 5). -/
theorem claim_C5 (tol : ℚ) (a b : Grid)
    (hw : 5 < a.W) (hh : 5 < a.H) (hbound : a.W ≤ 10000) :
    (∀ r : Coord, eligible a r = true ↔ (r.batch = 0 ∧ r.x < a.W ∧ r.y < a.H)) ∧
    (restrictedCounts tol a b
        [⟨0, 5, 5, 0⟩, ⟨1, 3, 3, 0⟩, ⟨0, 10000, 2, 0⟩] 3).2 = 1 ∧
    (restrictedCounts tol a b
        [⟨0, 5, 5, 0⟩, ⟨1, 3, 3, 0⟩, ⟨0, 10000, 2, 0⟩] 3).1
      = (if cellClose tol a b ⟨0, 5, 5, 0⟩ then 1 else 0) := by
  have e1 : eligible a ⟨0, 5, 5, 0⟩ = true := by
    simp [eligible]
    exact ⟨hw, hh⟩
  have e2 : eligible a ⟨1, 3, 3, 0⟩ = false := by
    simp [eligible]
  have e3 : eligible a ⟨0, 10000, 2, 0⟩ = false := by
    simp [eligible]
    omega
  refine ⟨fun r => by simp [eligible], ?_, ?_⟩
  · simp [restrictedCounts, List.take, e1, e2, e3]
  · simp [restrictedCounts, List.take, e1, e2, e3]
    cases hq : cellClose tol a b ⟨0, 5, 5, 0⟩ <;> simp [hq]

theorem claim_C5_witness :
    5 < deployGrid.W ∧ 5 < deployGrid.H ∧ deployGrid.W ≤ 10000 ∧
    (restrictedCounts 1 deployGrid deployGrid
        [⟨0, 5, 5, 0⟩, ⟨1, 3, 3, 0⟩, ⟨0, 10000, 2, 0⟩] 3).2 = 1 :=
  ⟨by decide, by decide, by decide,
    (claim_C5 1 deployGrid deployGrid (by decide) (by decide) (by decide)).2.1⟩

/-- Claim C8: the grid loader truncates an oversized flat buffer to the
expected prefix, flags it in the emitted diagnostic and does not error,
while an undersized buffer fails with InsufficientData and yields no grid. -/
theorem claim_C8 (data : List ℚ) (h w c : Nat) :
    (1 * h * w * c < data.length →
      load_feature_map data h w c = .ok (true, data.take (1 * h * w * c))) ∧
    (data.length < 1 * h * w * c →
      load_feature_map data h w c = .error .insufficientData) := by
  constructor
  · intro hl
    simp only [one_mul] at hl
    have h1 : data.length ≠ h * w * c := by omega
    have h2 : ¬ data.length < h * w * c := by omega
    simp [load_feature_map, h1, h2]
  · intro hl
    simp only [one_mul] at hl
    have h1 : data.length ≠ h * w * c := by omega
    simp [load_feature_map, h1, hl]

theorem claim_C8_witness :
    load_feature_map [0, 7] 1 1 1 = .ok (true, [0]) ∧
    load_feature_map [] 1 1 1 = .error .insufficientData :=
  ⟨by simpa using (claim_C8 [0, 7] 1 1 1).1 (by simp),
   (claim_C8 [] 1 1 1).2 (by simp)⟩

/-- Claim C9, counterexample: the coordinate loader returns the very same
value (`none`) for a missing file and for a malformed word stream, so the
two failures are not distinguishable by the caller through the result. -/
theorem claim_C9_counterexample :
    load_coords_file false [1, 2, 3, 4] = load_coords_file true [1, 2, 3] ∧
    load_coords_file false [1, 2, 3, 4] = none :=
  ⟨rfl, rfl⟩

/-- Claim C9, amended: missing source and malformed content are told apart
only by printed warnings; the returned value is `none` in both cases, so the
caller receives indistinguishable results and degrades to full-array
comparison whenever the load yields `none`. -/
theorem claim_C9_amended (words : List Nat) (hbad : words.length % 4 ≠ 0) :
    load_coords_file false words = none ∧
    load_coords_file true words = none ∧
    load_coords_file false words = load_coords_file true words := by
  simp [load_coords_file, hbad]

theorem claim_C9_amended_witness :
    ([5] : List Nat).length % 4 ≠ 0 ∧
    (load_coords_file false [5] = none ∧
     load_coords_file true [5] = none ∧
     load_coords_file false [5] = load_coords_file true [5]) :=
  ⟨by decide, claim_C9_amended [5] (by decide)⟩

/-- Claim C10: when the two grid files decode to identical contents (so
their sizes and MD5 digests agree), `main` exits 0 at the MD5 check, before
any grid is loaded, reshaped or compared, regardless of the coordinate data
and of what layout or dimensions the data would later be given. -/
theorem claim_C10 (digest : List ℚ → Nat) (outData refData : List ℚ)
    (coords : Option (List Coord)) (heq : outData = refData) :
    mainRun digest true true outData refData coords = ⟨0, false⟩ := by
  subst heq
  simp [mainRun]

theorem claim_C10_witness :
    mainRun (fun _ => 0) true true [3] [3] none = ⟨0, false⟩ :=
  claim_C10 (fun _ => 0) [3] [3] none rfl

theorem nhwc_flat_decode (c h w y x cc : Nat)
    (_hy : y < h) (hx : x < w) (hc : cc < c) :
    (y * (w * c) + x * c + cc) % c = cc ∧
    (y * (w * c) + x * c + cc) / c % w = x ∧
    (y * (w * c) + x * c + cc) / (w * c) = y := by
  have hc0 : 0 < c := lt_of_le_of_lt (Nat.zero_le cc) hc
  have hw0 : 0 < w := lt_of_le_of_lt (Nat.zero_le x) hx
  have hj : y * (w * c) + x * c + cc = cc + c * (x + w * y) := by ring
  have hj2 : y * (w * c) + x * c + cc = (x * c + cc) + (w * c) * y := by ring
  refine ⟨?_, ?_, ?_⟩
  · rw [hj, Nat.add_mul_mod_self_left, Nat.mod_eq_of_lt hc]
  · rw [hj, Nat.add_mul_div_left _ _ hc0, Nat.div_eq_of_lt hc, Nat.zero_add,
      Nat.add_mul_mod_self_left, Nat.mod_eq_of_lt hx]
  · have hxc : x * c + cc < w * c := by
      calc x * c + cc < x * c + c := by omega
        _ = (x + 1) * c := by ring
        _ ≤ w * c := Nat.mul_le_mul_right c hx
    rw [hj2, Nat.add_mul_div_left _ _ (Nat.mul_pos hw0 hc0),
      Nat.div_eq_of_lt hxc, Nat.zero_add]

theorem transposeToNHWC_apply (c h w : Nat) (buf : Nat → ℚ) (y x cc : Nat)
    (hy : y < h) (hx : x < w) (hc : cc < c) :
    transposeToNHWC c h w buf (y * (w * c) + x * c + cc)
      = buf (cc * (h * w) + y * w + x) := by
  obtain ⟨h1, h2, h3⟩ := nhwc_flat_decode c h w y x cc hy hx hc
  simp only [transposeToNHWC, h1, h2, h3]

/-- Claim C4: viewing a flat channel-first buffer as (1, C, H, W) and
permuting the axes to (1, H, W, C) moves no value: the NHWC physical slot of
logical (row y, col x, channel cc) holds exactly the buffer element at NCHW
offset cc*(h*w) + y*w + x; and applying the inverse permutation to the
canonical grid reproduces the original flat buffer element by element. -/
theorem claim_C4 (c h w : Nat) (buf : Nat → ℚ) :
    (∀ y < h, ∀ x < w, ∀ cc < c,
      transposeToNHWC c h w buf (y * (w * c) + x * c + cc)
        = buf (cc * (h * w) + y * w + x)) ∧
    (∀ i < c * h * w,
      transposeToNCHW c h w (transposeToNHWC c h w buf) i = buf i) := by
  constructor
  · intro y hy x hx cc hc
    exact transposeToNHWC_apply c h w buf y x cc hy hx hc
  · intro i hi
    have ht : 0 < c * h * w := lt_of_le_of_lt (Nat.zero_le i) hi
    have hcN : c ≠ 0 := by rintro rfl; simp at ht
    have hhN : h ≠ 0 := by rintro rfl; simp at ht
    have hwN : w ≠ 0 := by rintro rfl; simp at ht
    have hh0 : 0 < h := Nat.pos_of_ne_zero hhN
    have hw0 : 0 < w := Nat.pos_of_ne_zero hwN
    have hhw0 : 0 < h * w := Nat.mul_pos hh0 hw0
    have hi' : i < c * (h * w) := by rw [← Nat.mul_assoc]; exact hi
    have hcc : i / (h * w) < c := (Nat.div_lt_iff_lt_mul hhw0).mpr hi'
    have hy' : i % (h * w) / w < h := by
      rw [Nat.div_lt_iff_lt_mul hw0]
      exact Nat.mod_lt i hhw0
    have hxw : i % w = i % (h * w) % w :=
      (Nat.mod_mod_of_dvd i ⟨h, Nat.mul_comm h w⟩).symm
    have hx' : i % (h * w) % w < w := hxw ▸ Nat.mod_lt i hw0
    have key : (i / (h * w)) * (h * w) + (i % (h * w) / w) * w
        + i % (h * w) % w = i := by
      have e1 := Nat.div_add_mod i (h * w)
      have e2 := Nat.div_add_mod (i % (h * w)) w
      calc (i / (h * w)) * (h * w) + (i % (h * w) / w) * w + i % (h * w) % w
          = (h * w) * (i / (h * w))
            + (w * (i % (h * w) / w) + i % (h * w) % w) := by ring
        _ = (h * w) * (i / (h * w)) + i % (h * w) := by rw [e2]
        _ = i := e1
    calc transposeToNCHW c h w (transposeToNHWC c h w buf) i
        = transposeToNHWC c h w buf
            ((i % (h * w) / w) * (w * c) + (i % (h * w) % w) * c
              + i / (h * w)) := by rw [transposeToNCHW, hxw]
      _ = buf ((i / (h * w)) * (h * w) + (i % (h * w) / w) * w
              + i % (h * w) % w) :=
          transposeToNHWC_apply c h w buf _ _ _ hy' hx' hcc
      _ = buf i := by rw [key]

theorem claim_C4_witness :
    5 < 2 * 2 * 2 ∧
    transposeToNCHW 2 2 2 (transposeToNHWC 2 2 2 exBuf) 5 = exBuf 5 :=
  ⟨by decide, (claim_C4 2 2 2 exBuf).2 5 (by decide)⟩
